import Mathlib

set_option linter.unusedVariables false

/-!
# Verification of `util-src/crypto.c` (Prosody `util.crypto`)

A shallow embedding of the Lua/OpenSSL binding in `src/util-src/crypto.c`.
Byte strings are `List Nat` (each element a byte value).  The OpenSSL
primitives themselves (AES, digests, big-number arithmetic) are external to
the repository and are modelled at their interface:

* the EVP sign/verify calls are parametrised by the native outcome
  (`SignNative`, `VerifyNative`);
* AES-GCM is modelled by its mode structure (`GCMModel`): `EVP_EncryptUpdate`
  and `EVP_DecryptUpdate` in GCM both XOR the data with the CTR keystream,
  `EVP_EncryptFinal_ex`/`EVP_DecryptFinal_ex` emit no bytes, the tag is a
  function of key, IV and ciphertext, and `EVP_DecryptFinal_ex` succeeds
  exactly when the tag set via `EVP_CTRL_AEAD_SET_TAG` equals that function's
  value;
* the DER codec (`d2i_ECDSA_SIG` / `i2d_ECDSA_SIG`) and the big-number byte
  conversions (`BN_bn2bin` / `BN_bin2bn`) are given executable models of the
  documented DER `SEQUENCE { INTEGER r, INTEGER s }` encoding and of
  minimal big-endian unsigned integers.

Every wrapper follows the C control flow statement by statement: argument
checks in source order (raised via `luaL_error` / `luaL_argerror`, modelled
as `LuaError`), then the native calls.  Each wrapper also returns the list
of native calls it performed, so that "no native call is made" claims are
statable.
-/

/-! ## OpenSSL numeric constants (from `obj_mac.h` / `rsa.h`) -/

def NID_rsaEncryption : Nat := 6
def NID_rsassaPss : Nat := 912
def NID_X9_62_id_ecPublicKey : Nat := 408
def NID_ED25519 : Nat := 1087
def NID_sha256 : Nat := 672
def RSA_PKCS1_PADDING : Nat := 1
def RSA_PKCS1_PSS_PADDING : Nat := 6

/-! ## Lua-level errors and values -/

/-- An error raised through the Lua API: `luaL_argerror`/`luaL_argcheck`
carry the argument index and a message, `luaL_error` carries a message. -/
inductive LuaError where
  | argError (idx : Nat) (msg : String)
  | runtimeError (msg : String)
deriving DecidableEq, Repr

/-- The message `pkey_from_arg` raises when the uservalue `type` field does
not match the expected key type (the spec's `TypeMismatch`). -/
def typeMismatchMsg : String := "unexpected key type"

/-- The message `pkey_from_arg` raises when a private key is required but the
handle has no private material (the spec's `CapabilityMismatch`). -/
def capabilityMismatchMsg : String := "private key expected, got public key only"

/-- A native call performed by a wrapper, in source order. -/
inductive NativeCall where
  | digestSignInit
  | setRsaPadding (pad : Nat)
  | digestSignProbe
  | digestSignFinal
  | digestVerifyInit
  | digestVerify
  | encryptInitCipher
  | encryptInitKeyIV
  | encryptUpdate
  | encryptFinal
  | getTag
  | decryptInitCipher
  | decryptInitKeyIV
  | decryptUpdate
  | setTag
  | decryptFinal
deriving DecidableEq, Repr

/-! ## Key handles

`push_pkey` attaches a uservalue table with a `type` integer (absent fields
read back as 0 through `lua_tointeger`) and a `private` boolean. -/

/-- The Lua-visible state of a `util.crypto key` userdatum: the uservalue
fields read back by `pkey_from_arg`.  `keyType = 0` models an absent `type`
field. -/
structure KeyHandle where
  keyType : Nat
  isPrivate : Bool
deriving DecidableEq, Repr

/-- `pkey_from_arg(L, idx, type, require_private)`: checks the `type`
uservalue field against `type` when `type != 0`, then the `private` field
when `require_private != 0`, raising `luaL_argerror` on the first failure. -/
def pkey_from_arg (h : KeyHandle) (type : Nat) (require_private : Bool) :
    Except LuaError Unit :=
  if type ≠ 0 ∧ h.keyType ≠ type then
    .error (.argError 1 typeMismatchMsg)
  else if require_private ∧ h.isPrivate = false then
    .error (.argError 1 capabilityMismatchMsg)
  else
    .ok ()

/-! ## Generic sign / verify (`base_evp_sign`, `base_evp_verify`) -/

/-- Outcomes of the native EVP calls inside `base_evp_sign`:
`EVP_DigestSignInit`, the zero-length probe `EVP_DigestSign`, and the real
`EVP_DigestSign` together with the signature bytes it writes. -/
structure SignNative where
  initOk : Bool
  probeOk : Bool
  signOk : Bool
  signature : List Nat
deriving DecidableEq, Repr

/-- Outcomes of the native EVP calls inside `base_evp_verify`:
`EVP_DigestVerifyInit` and the `Int` returned by `EVP_DigestVerify`
(1 = valid, 0 = signature does not verify, anything else = failure). -/
structure VerifyNative where
  initOk : Bool
  result : Int
deriving DecidableEq, Repr

/-- `base_evp_sign(L, key_type, digest_type)`.  The key is validated first
(`NID_rsassaPss` keys are stored with type `NID_rsaEncryption`, so that is
what is demanded of them), requiring private material; then
`EVP_DigestSignInit`, PSS padding selection for the PSS family, the probe
call and the real signing call.  Native failures push `nil` (`Option.none`);
the result is paired with the trace of native calls made. -/
def base_evp_sign (key_type : Nat) (digest_type : Option Nat) (h : KeyHandle)
    (msg : List Nat) (native : SignNative) :
    Except LuaError (Option (List Nat)) × List NativeCall :=
  match pkey_from_arg h (if key_type ≠ NID_rsassaPss then key_type else NID_rsaEncryption)
      true with
  | .error e => (.error e, [])
  | .ok _ =>
    let _ := digest_type
    if native.initOk = false then
      (.ok none, [.digestSignInit])
    else
      let padCalls : List NativeCall :=
        if key_type = NID_rsassaPss then [.setRsaPadding RSA_PKCS1_PSS_PADDING] else []
      if native.probeOk = false then
        (.ok none, .digestSignInit :: padCalls ++ [.digestSignProbe])
      else if native.signOk = false then
        (.ok none, .digestSignInit :: padCalls ++ [.digestSignProbe, .digestSignFinal])
      else
        (.ok (some native.signature),
          .digestSignInit :: padCalls ++ [.digestSignProbe, .digestSignFinal])

/-- `base_evp_verify(L, key_type, digest_type)`.  The key is validated (no
private material required), then `EVP_DigestVerifyInit`, PSS padding for the
PSS family, and `EVP_DigestVerify`.  The pushed value is `nil`
(`Option.none`) on native failure, `false` when the signature does not
verify, `true` when it does. -/
def base_evp_verify (key_type : Nat) (digest_type : Option Nat) (h : KeyHandle)
    (msg sig : List Nat) (native : VerifyNative) :
    Except LuaError (Option Bool) × List NativeCall :=
  match pkey_from_arg h (if key_type ≠ NID_rsassaPss then key_type else NID_rsaEncryption)
      false with
  | .error e => (.error e, [])
  | .ok _ =>
    let _ := digest_type
    if native.initOk = false then
      (.ok none, [.digestVerifyInit])
    else
      let padCalls : List NativeCall :=
        if key_type = NID_rsassaPss then [.setRsaPadding RSA_PKCS1_PSS_PADDING] else []
      let verdict : Option Bool :=
        if native.result = 0 then some false
        else if native.result ≠ 1 then none
        else some true
      (.ok verdict, .digestVerifyInit :: padCalls ++ [.digestVerify])

/-- `ed25519_sign(key, data)`: Ed25519 is digest-less (`NULL` digest). -/
def Led25519_sign (h : KeyHandle) (msg : List Nat) (native : SignNative) :=
  base_evp_sign NID_ED25519 none h msg native

/-- `ed25519_verify(key, data, sig)`. -/
def Led25519_verify (h : KeyHandle) (msg sig : List Nat) (native : VerifyNative) :=
  base_evp_verify NID_ED25519 none h msg sig native

/-- `rsassa_pkcs1_256_sign(key, data)`. -/
def Lrsassa_pkcs1_256_sign (h : KeyHandle) (msg : List Nat) (native : SignNative) :=
  base_evp_sign NID_rsaEncryption (some NID_sha256) h msg native

/-- `rsassa_pkcs1_256_verify(key, data, sig)`. -/
def Lrsassa_pkcs1_256_verify (h : KeyHandle) (msg sig : List Nat) (native : VerifyNative) :=
  base_evp_verify NID_rsaEncryption (some NID_sha256) h msg sig native

/-- `rsassa_pss_256_sign(key, data)`. -/
def Lrsassa_pss_256_sign (h : KeyHandle) (msg : List Nat) (native : SignNative) :=
  base_evp_sign NID_rsassaPss (some NID_sha256) h msg native

/-- `rsassa_pss_256_verify(key, data, sig)`. -/
def Lrsassa_pss_256_verify (h : KeyHandle) (msg sig : List Nat) (native : VerifyNative) :=
  base_evp_verify NID_rsassaPss (some NID_sha256) h msg sig native

/-- `ecdsa_sha256_sign(key, data)`. -/
def Lecdsa_sha256_sign (h : KeyHandle) (msg : List Nat) (native : SignNative) :=
  base_evp_sign NID_X9_62_id_ecPublicKey (some NID_sha256) h msg native

/-- `ecdsa_sha256_verify(key, data, sig)`. -/
def Lecdsa_sha256_verify (h : KeyHandle) (msg sig : List Nat) (native : VerifyNative) :=
  base_evp_verify NID_X9_62_id_ecPublicKey (some NID_sha256) h msg sig native

/-! ## Key generation (`generate_ed25519_keypair`) -/

/-- The userdatum `push_pkey` builds: the wrapped native `EVP_PKEY*`
(`none` models a `NULL` pointer) plus the uservalue fields. -/
structure PushedKey where
  pkey : Option Unit
  keyType : Nat
  isPrivate : Bool
deriving DecidableEq, Repr

/-- `generate_ed25519_keypair()`.  `nativeKey` is the `EVP_PKEY*` left in
`pkey` after `EVP_PKEY_keygen` (`none` when generation failed and the
pointer is still `NULL`).  The C code does not test the return values of
`EVP_PKEY_keygen_init` / `EVP_PKEY_keygen`: it unconditionally calls
`push_pkey(L, pkey, NID_ED25519, 1)`. -/
def Lgenerate_ed25519_keypair (nativeKey : Option Unit) : PushedKey :=
  { pkey := nativeKey, keyType := NID_ED25519, isPrivate := true }

/-! ## AEAD (`Laes_gcm_encrypt`, `Laes_gcm_decrypt`)

GCM is a stream mode: `EVP_EncryptUpdate` and `EVP_DecryptUpdate` both XOR
their input with the CTR keystream derived from key and IV, and the
finalisation calls emit no bytes.  The tag retrieved with
`EVP_CTRL_AEAD_GET_TAG` is a function of key, IV and ciphertext, and
`EVP_DecryptFinal_ex` succeeds exactly when the tag set with
`EVP_CTRL_AEAD_SET_TAG` equals that function's value.  The block cipher
itself is external (OpenSSL), so the model is parametric in the keystream
and tag functions. -/

/-- The interface the wrappers use of OpenSSL's GCM implementation:
`keystream key iv n` is the first `n` CTR keystream bytes, and
`tagOf key iv ct` is the 16-byte authentication tag over ciphertext `ct`. -/
structure GCMModel where
  keystream : List Nat → List Nat → Nat → List Nat
  tagOf : List Nat → List Nat → List Nat → List Nat

/-- Byte-wise XOR of two byte strings (truncating to the shorter). -/
def xorBytes (a b : List Nat) : List Nat :=
  List.zipWith (fun x y => x ^^^ y) a b

/-- Distinguishes a successful decryption from the `nil, "verify-failed"`
pair pushed when `EVP_DecryptFinal_ex` reports authentication failure. -/
inductive DecryptResult where
  | plaintext (pt : List Nat)
  | verifyFailed
deriving DecidableEq, Repr

/-- `Laes_gcm_encrypt(L, cipher, expected_key_len)`: checks the key length
(`luaL_error`), the IV length (`luaL_argcheck` on argument 2), initialises
the cipher, encrypts the whole plaintext in one `EVP_EncryptUpdate`,
finalises (zero bytes in GCM), reads the 16-byte tag and returns
ciphertext followed by tag. -/
def Laes_gcm_encrypt (M : GCMModel) (expected_key_len : Nat)
    (key iv plaintext : List Nat) :
    Except LuaError (List Nat) × List NativeCall :=
  if key.length ≠ expected_key_len then
    (.error (.runtimeError ("key must be " ++ toString expected_key_len ++ " bytes")), [])
  else if iv.length ≠ 12 then
    (.error (.argError 2 "iv must be 12 bytes"), [])
  else
    let ciphertext := xorBytes plaintext (M.keystream key iv plaintext.length)
    (.ok (ciphertext ++ M.tagOf key iv ciphertext),
      [.encryptInitCipher, .encryptInitKeyIV, .encryptUpdate, .encryptFinal, .getTag])

/-- `aes_128_gcm_encrypt(key, iv, plaintext)`. -/
def Laes_128_gcm_encrypt (M : GCMModel) (key iv plaintext : List Nat) :=
  Laes_gcm_encrypt M 16 key iv plaintext

/-- `aes_256_gcm_encrypt(key, iv, plaintext)`. -/
def Laes_256_gcm_encrypt (M : GCMModel) (key iv plaintext : List Nat) :=
  Laes_gcm_encrypt M 32 key iv plaintext

/-- `Laes_gcm_decrypt(L, cipher, expected_key_len)`: checks key length,
IV length, and `ciphertext_len > 16` (`luaL_argcheck` on argument 3, message
"ciphertext must be at least 16 bytes (including tag)"); then decrypts the
first `ciphertext_len - 16` bytes, sets the trailing 16 bytes as the
expected tag, and finalises.  A failed finalise pushes
`nil, "verify-failed"`; success pushes the plaintext. -/
def Laes_gcm_decrypt (M : GCMModel) (expected_key_len : Nat)
    (key iv ciphertext : List Nat) :
    Except LuaError DecryptResult × List NativeCall :=
  if key.length ≠ expected_key_len then
    (.error (.runtimeError ("key must be " ++ toString expected_key_len ++ " bytes")), [])
  else if iv.length ≠ 12 then
    (.error (.argError 2 "iv must be 12 bytes"), [])
  else if ¬ ciphertext.length > 16 then
    (.error (.argError 3 "ciphertext must be at least 16 bytes (including tag)"), [])
  else
    let body := ciphertext.take (ciphertext.length - 16)
    let tag := ciphertext.drop (ciphertext.length - 16)
    let plaintext := xorBytes body (M.keystream key iv body.length)
    let calls : List NativeCall :=
      [.decryptInitCipher, .decryptInitKeyIV, .decryptUpdate, .setTag, .decryptFinal]
    if tag = M.tagOf key iv body then
      (.ok (.plaintext plaintext), calls)
    else
      (.ok .verifyFailed, calls)

/-- `aes_128_gcm_decrypt(key, iv, ciphertext)`. -/
def Laes_128_gcm_decrypt (M : GCMModel) (key iv ciphertext : List Nat) :=
  Laes_gcm_decrypt M 16 key iv ciphertext

/-- `aes_256_gcm_decrypt(key, iv, ciphertext)`. -/
def Laes_256_gcm_decrypt (M : GCMModel) (key iv ciphertext : List Nat) :=
  Laes_gcm_decrypt M 32 key iv ciphertext

/-- A concrete `GCMModel` instance used to evaluate the wrappers on closed
inputs (the wrappers' correctness theorems hold for every instance). -/
def demoGCM : GCMModel where
  keystream := fun key iv n => (List.range n).map (fun i => (i + key.length + iv.length) % 256)
  tagOf := fun key iv ct => (List.range 16).map (fun i => (i * 7 + ct.length) % 256)

/-! ## ECDSA signature codec (`parse_ecdsa_signature`, `build_ecdsa_signature`)

`d2i_ECDSA_SIG` / `i2d_ECDSA_SIG` work on the DER structure
`ECDSA-Sig-Value ::= SEQUENCE { r INTEGER, s INTEGER }`, and
`BN_bn2bin` / `BN_bin2bn` convert between OpenSSL big numbers and
minimal-length big-endian unsigned byte strings (`BN_num_bytes(0) = 0`, so
zero becomes the empty string).  These are modelled executably below. -/

/-- `BN_bn2bin`: the minimal big-endian byte string of `n` (empty for 0). -/
def BN_bn2bin (n : Nat) : List Nat :=
  if h : n = 0 then [] else BN_bn2bin (n / 256) ++ [n % 256]
termination_by n
decreasing_by exact Nat.div_lt_self (Nat.pos_of_ne_zero h) (by norm_num)

/-- `BN_bin2bn`: interpret a byte string as a big-endian unsigned integer. -/
def BN_bin2bn (bytes : List Nat) : Nat :=
  bytes.foldl (fun acc b => acc * 256 + b) 0

/-- DER length field: short form below 128, else long form with a minimal
big-endian length. -/
def derLenEncode (n : Nat) : List Nat :=
  if n < 128 then [n] else (128 + (BN_bn2bin n).length) :: BN_bn2bin n

/-- Parse a DER length field, enforcing DER minimality (no indefinite
length, no leading zero length byte, long form only for values ≥ 128).
Returns the length and the remaining bytes. -/
def derLenParse : List Nat → Option (Nat × List Nat)
  | [] => none
  | b :: rest =>
    if b < 128 then some (b, rest)
    else if b = 128 then none
    else
      let k := b - 128
      if rest.length < k then none
      else
        let lenBytes := rest.take k
        let v := BN_bin2bn lenBytes
        if lenBytes.headD 0 = 0 ∨ v < 128 then none
        else some (v, rest.drop k)

/-- The content octets of a DER `INTEGER` holding the nonnegative value `n`:
minimal big-endian, zero-padded by one byte when the top bit is set, a
single zero byte for 0. -/
def derIntContent (n : Nat) : List Nat :=
  if BN_bn2bin n = [] then [0]
  else if 128 ≤ (BN_bn2bin n).headD 0 then 0 :: BN_bn2bin n
  else BN_bn2bin n

/-- A DER `INTEGER` TLV for the nonnegative value `n`. -/
def derIntTLV (n : Nat) : List Nat :=
  2 :: derLenEncode (derIntContent n).length ++ derIntContent n

/-- Parse a DER `INTEGER` TLV holding a nonnegative value in canonical form
(tag 2; nonempty content; top bit clear on the first content byte; a leading
zero byte only when required by the next byte's top bit).  Returns the value
and the remaining bytes. -/
def derIntParse (bytes : List Nat) : Option (Nat × List Nat) :=
  match bytes with
  | [] => none
  | t :: rest =>
    if t ≠ 2 then none
    else
      match derLenParse rest with
      | none => none
      | some (len, rest2) =>
        if rest2.length < len ∨ len = 0 then none
        else
          let content := rest2.take len
          if 128 ≤ content.headD 0 then none
          else if content.headD 0 = 0 ∧ 1 < len ∧ (content.get? 1).getD 0 < 128 then none
          else some (BN_bin2bn content, rest2.drop len)

/-- `d2i_ECDSA_SIG`: parse a DER `SEQUENCE` of two `INTEGER`s from the front
of `der` (bytes after the sequence are ignored, as `d2i` leaves them for the
caller); the sequence content must consist exactly of the two integers. -/
def d2i_ECDSA_SIG (der : List Nat) : Option (Nat × Nat) :=
  match der with
  | [] => none
  | t :: rest =>
    if t ≠ 48 then none
    else
      match derLenParse rest with
      | none => none
      | some (len, rest2) =>
        if rest2.length < len then none
        else
          match derIntParse (rest2.take len) with
          | none => none
          | some (r, rest3) =>
            match derIntParse rest3 with
            | none => none
            | some (s, rest4) => if rest4 = [] then some (r, s) else none

/-- `i2d_ECDSA_SIG`: DER-encode the pair `(r, s)`. -/
def i2d_ECDSA_SIG (r s : Nat) : List Nat :=
  let body := derIntTLV r ++ derIntTLV s
  48 :: derLenEncode body.length ++ body

/-- `parse_ecdsa_signature(sig_der)`: `d2i_ECDSA_SIG`, then `BN_bn2bin` on
each component (`BN_num_bytes` sizes the buffers); `nil` on parse failure. -/
def Lparse_ecdsa_signature (sig_der : List Nat) : Option (List Nat × List Nat) :=
  match d2i_ECDSA_SIG sig_der with
  | none => none
  | some (r, s) => some (BN_bn2bin r, BN_bn2bin s)

/-- `build_ecdsa_signature(r, s)`: `BN_bin2bn` on each argument, then
`i2d_ECDSA_SIG`. -/
def Lbuild_ecdsa_signature (rbin sbin : List Nat) : List Nat :=
  i2d_ECDSA_SIG (BN_bin2bn rbin) (BN_bin2bn sbin)

/-! ## Helper lemmas -/

theorem BN_bn2bin_zero : BN_bn2bin 0 = [] := by
  rw [BN_bn2bin]
  simp

theorem BN_bn2bin_ne_nil {n : Nat} (hn : n ≠ 0) : BN_bn2bin n ≠ [] := by
  rw [BN_bn2bin, dif_neg hn]
  simp

theorem BN_bin2bn_nil : BN_bin2bn [] = 0 := rfl

theorem BN_bin2bn_append (xs : List Nat) (b : Nat) :
    BN_bin2bn (xs ++ [b]) = BN_bin2bn xs * 256 + b := by
  simp [BN_bin2bn, List.foldl_append]

theorem BN_bin2bn_cons_zero (xs : List Nat) : BN_bin2bn (0 :: xs) = BN_bin2bn xs := by
  simp [BN_bin2bn]

theorem BN_bin2bn_bn2bin (n : Nat) : BN_bin2bn (BN_bn2bin n) = n := by
  induction n using Nat.strong_induction_on with
  | _ n ih =>
    by_cases hn : n = 0
    · subst hn
      rw [BN_bn2bin_zero, BN_bin2bn_nil]
    · rw [BN_bn2bin, dif_neg hn, BN_bin2bn_append,
        ih (n / 256) (Nat.div_lt_self (Nat.pos_of_ne_zero hn) (by norm_num))]
      omega

theorem BN_bn2bin_headD_ne_zero (n : Nat) : n ≠ 0 → (BN_bn2bin n).headD 0 ≠ 0 := by
  induction n using Nat.strong_induction_on with
  | _ n ih =>
    intro hn
    rw [BN_bn2bin, dif_neg hn]
    by_cases h2 : n / 256 = 0
    · rw [h2, BN_bn2bin_zero]
      have hlt : n < 256 := by omega
      simpa [Nat.mod_eq_of_lt hlt] using hn
    · have hne := BN_bn2bin_ne_nil h2
      cases hxs : BN_bn2bin (n / 256) with
      | nil => exact absurd hxs hne
      | cons a as =>
        have := ih (n / 256) (Nat.div_lt_self (Nat.pos_of_ne_zero hn) (by norm_num)) h2
        rw [hxs] at this
        simpa using this

theorem xorBytes_length (a b : List Nat) :
    (xorBytes a b).length = min a.length b.length := by
  simp [xorBytes]

theorem xorBytes_xorBytes (a b : List Nat) (h : a.length ≤ b.length) :
    xorBytes (xorBytes a b) b = a := by
  induction a generalizing b with
  | nil => simp [xorBytes]
  | cons x xs ih =>
    cases b with
    | nil => simp at h
    | cons y ys =>
      simp only [xorBytes, List.zipWith_cons_cons] at *
      refine congrArg₂ List.cons ?_ (ih ys (by simpa using h))
      exact Nat.xor_cancel_right y x

theorem derLenParse_encode (n : Nat) (rest : List Nat) :
    derLenParse (derLenEncode n ++ rest) = some (n, rest) := by
  by_cases h : n < 128
  · simp [derLenEncode, derLenParse, h]
  · have hn : n ≠ 0 := by omega
    have hlen : (BN_bn2bin n).length ≠ 0 := by
      simpa using BN_bn2bin_ne_nil hn
    simp only [derLenEncode, if_neg h, List.cons_append, derLenParse]
    rw [if_neg (by omega), if_neg (by omega)]
    have hsub : 128 + (BN_bn2bin n).length - 128 = (BN_bn2bin n).length := by omega
    rw [hsub]
    rw [if_neg (by simp)]
    rw [List.take_left, List.drop_left]
    rw [if_neg ?_]
    · rw [BN_bin2bn_bn2bin]
    · rw [BN_bin2bn_bn2bin]
      push_neg
      exact ⟨BN_bn2bin_headD_ne_zero n hn, by omega⟩

theorem derIntContent_ne_nil (n : Nat) : derIntContent n ≠ [] := by
  unfold derIntContent
  split
  · simp
  · split
    · simp
    · exact BN_bn2bin_ne_nil (fun h => by simp [h, BN_bn2bin_zero] at *)

theorem BN_bin2bn_derIntContent (n : Nat) : BN_bin2bn (derIntContent n) = n := by
  unfold derIntContent
  split
  · rename_i h
    have : n = 0 := by
      by_contra hn
      exact BN_bn2bin_ne_nil hn h
    simp [this, BN_bin2bn]
  · split
    · rw [BN_bin2bn_cons_zero, BN_bin2bn_bn2bin]
    · exact BN_bin2bn_bn2bin n

theorem derIntParse_TLV (n : Nat) (rest : List Nat) :
    derIntParse (derIntTLV n ++ rest) = some (n, rest) := by
  have hcontent := derIntContent_ne_nil n
  have hlp : derLenParse (derLenEncode (derIntContent n).length ++ (derIntContent n ++ rest))
      = some ((derIntContent n).length, derIntContent n ++ rest) :=
    derLenParse_encode _ _
  simp only [derIntTLV, List.cons_append, List.append_assoc, derIntParse, hlp]
  rw [if_neg (by decide)]
  rw [if_neg ?lenok]
  case lenok =>
    push_neg
    constructor
    · rw [List.length_append]
      omega
    · simpa using hcontent
  rw [List.take_left, List.drop_left]
  rw [if_neg ?topbit]
  case topbit =>
    unfold derIntContent
    split
    · simp
    · split
      · simp
      · rename_i h1 h2
        have := BN_bn2bin_headD_ne_zero n (fun h => by simp [h, BN_bn2bin_zero] at h1)
        omega
  rw [if_neg ?zeropad]
  case zeropad =>
    unfold derIntContent
    split
    · simp
    · split
      · rename_i h1 h2
        push_neg
        intro hz hlen
        rcases hb : BN_bn2bin n with _ | ⟨b, bs⟩
        · exact absurd hb (BN_bn2bin_ne_nil (fun h => by simp [h, BN_bn2bin_zero] at h1))
        · rw [hb] at h2
          simp only [List.headD_cons] at h2
          simp [hb]
          omega
      · rename_i h1 h2
        have := BN_bn2bin_headD_ne_zero n (fun h => by simp [h, BN_bn2bin_zero] at h1)
        intro hz
        exact absurd hz.1 this
  rw [BN_bin2bn_derIntContent]

theorem d2i_i2d_ECDSA_SIG (r s : Nat) : d2i_ECDSA_SIG (i2d_ECDSA_SIG r s) = some (r, s) := by
  have hlp : derLenParse (derLenEncode (derIntTLV r ++ derIntTLV s).length
        ++ (derIntTLV r ++ derIntTLV s))
      = some ((derIntTLV r ++ derIntTLV s).length, derIntTLV r ++ derIntTLV s) :=
    derLenParse_encode _ _
  have h1 : derIntParse (derIntTLV r ++ derIntTLV s) = some (r, derIntTLV s) :=
    derIntParse_TLV r (derIntTLV s)
  have h2 : derIntParse (derIntTLV s) = some (s, []) := by
    have := derIntParse_TLV s []
    simpa using this
  simp only [i2d_ECDSA_SIG, d2i_ECDSA_SIG, List.cons_append, hlp]
  rw [if_neg (by decide), if_neg (by simp), List.take_length]
  simp only [h1, h2]
  simp

theorem pkey_from_arg_capability (h : KeyHandle) (t : Nat) (ht : h.keyType = t)
    (hpriv : h.isPrivate = false) :
    pkey_from_arg h t true = .error (.argError 1 capabilityMismatchMsg) := by
  unfold pkey_from_arg
  rw [if_neg (by simp [ht]), if_pos ⟨rfl, hpriv⟩]

theorem pkey_from_arg_no_private (h : KeyHandle) (t : Nat) (hpriv : h.isPrivate = false) :
    ∃ e, pkey_from_arg h t true = .error e := by
  unfold pkey_from_arg
  split
  · exact ⟨_, rfl⟩
  · rw [if_pos ⟨rfl, hpriv⟩]
    exact ⟨_, rfl⟩

theorem base_evp_sign_capability (kt : Nat) (dg : Option Nat) (h : KeyHandle)
    (msg : List Nat) (native : SignNative)
    (ht : h.keyType = (if kt ≠ NID_rsassaPss then kt else NID_rsaEncryption))
    (hpriv : h.isPrivate = false) :
    base_evp_sign kt dg h msg native = (.error (.argError 1 capabilityMismatchMsg), []) := by
  unfold base_evp_sign
  rw [pkey_from_arg_capability h _ ht hpriv]

theorem base_evp_sign_no_private_trace (kt : Nat) (dg : Option Nat) (h : KeyHandle)
    (msg : List Nat) (native : SignNative) (hpriv : h.isPrivate = false) :
    ∃ e, base_evp_sign kt dg h msg native = (.error e, []) := by
  obtain ⟨e, he⟩ := pkey_from_arg_no_private h
    (if kt ≠ NID_rsassaPss then kt else NID_rsaEncryption) hpriv
  refine ⟨e, ?_⟩
  unfold base_evp_sign
  rw [he]

/-! ## Claim theorems: key handles and sign/verify -/

/-- Claim C2 (code bug): `generate_ed25519_keypair` does return a handle with
algorithm Ed25519 and private material when native generation succeeds, but
when `EVP_PKEY_keygen` fails (leaving `pkey = NULL`, modelled as `none`) the
code ignores the failure and still returns a handle wrapping the absent
native key, instead of failing with `CryptoFailure` as the claim states. -/
theorem C2_keygen_failure_wrapped :
    Lgenerate_ed25519_keypair (some ())
      = { pkey := some (), keyType := NID_ED25519, isPrivate := true } ∧
    Lgenerate_ed25519_keypair none
      = { pkey := none, keyType := NID_ED25519, isPrivate := true } :=
  ⟨rfl, rfl⟩

/-- Claim C3, counterexample: `ed25519_sign` on a public-only handle whose
type tag is RSA fails with the type-mismatch argument error, not with
`CapabilityMismatch` — `pkey_from_arg` checks the type before the private
flag, so the claim as stated (every public-only handle fails with
`CapabilityMismatch`) is false. -/
theorem C3_counterexample :
    (Led25519_sign ⟨NID_rsaEncryption, false⟩ [] ⟨true, true, true, []⟩).1
      = .error (.argError 1 typeMismatchMsg) ∧
    typeMismatchMsg ≠ capabilityMismatchMsg := by
  constructor
  · rfl
  · decide

/-- Claim C3 (amended): for each signing operation, a handle of the
operation's expected key type with no private material fails with
`CapabilityMismatch`; and on any handle without private material, whatever
its type, the operation raises before any native call is made (the native
call trace is empty). -/
theorem C3_sign_public_only (h : KeyHandle) (msg : List Nat) (native : SignNative)
    (hpriv : h.isPrivate = false) :
    (h.keyType = NID_ED25519 →
      Led25519_sign h msg native = (.error (.argError 1 capabilityMismatchMsg), [])) ∧
    (h.keyType = NID_rsaEncryption →
      Lrsassa_pkcs1_256_sign h msg native = (.error (.argError 1 capabilityMismatchMsg), []) ∧
      Lrsassa_pss_256_sign h msg native = (.error (.argError 1 capabilityMismatchMsg), [])) ∧
    (h.keyType = NID_X9_62_id_ecPublicKey →
      Lecdsa_sha256_sign h msg native = (.error (.argError 1 capabilityMismatchMsg), [])) ∧
    (Led25519_sign h msg native).2 = [] ∧
    (Lrsassa_pkcs1_256_sign h msg native).2 = [] ∧
    (Lrsassa_pss_256_sign h msg native).2 = [] ∧
    (Lecdsa_sha256_sign h msg native).2 = [] := by
  refine ⟨?_, ?_, ?_, ?_, ?_, ?_, ?_⟩
  · intro hk
    exact base_evp_sign_capability _ _ h msg native (by rw [if_pos (by decide)]; exact hk) hpriv
  · intro hk
    refine ⟨?_, ?_⟩
    · exact base_evp_sign_capability _ _ h msg native (by rw [if_pos (by decide)]; exact hk) hpriv
    · exact base_evp_sign_capability _ _ h msg native (by rw [if_neg (by decide)]; exact hk) hpriv
  · intro hk
    exact base_evp_sign_capability _ _ h msg native (by rw [if_pos (by decide)]; exact hk) hpriv
  · show (base_evp_sign NID_ED25519 none h msg native).2 = []
    obtain ⟨e, he⟩ := base_evp_sign_no_private_trace NID_ED25519 none h msg native hpriv
    rw [he]
  · show (base_evp_sign NID_rsaEncryption (some NID_sha256) h msg native).2 = []
    obtain ⟨e, he⟩ :=
      base_evp_sign_no_private_trace NID_rsaEncryption (some NID_sha256) h msg native hpriv
    rw [he]
  · show (base_evp_sign NID_rsassaPss (some NID_sha256) h msg native).2 = []
    obtain ⟨e, he⟩ :=
      base_evp_sign_no_private_trace NID_rsassaPss (some NID_sha256) h msg native hpriv
    rw [he]
  · show (base_evp_sign NID_X9_62_id_ecPublicKey (some NID_sha256) h msg native).2 = []
    obtain ⟨e, he⟩ :=
      base_evp_sign_no_private_trace NID_X9_62_id_ecPublicKey (some NID_sha256) h msg native hpriv
    rw [he]

/-- Witness for C3: `ed25519_sign` on a matching-type public-only handle
fails with the capability-mismatch error, making no native call. -/
theorem C3_sign_public_only_witness :
    Led25519_sign ⟨NID_ED25519, false⟩ [] ⟨true, true, true, []⟩
      = (.error (.argError 1 capabilityMismatchMsg), []) :=
  (C3_sign_public_only ⟨NID_ED25519, false⟩ [] ⟨true, true, true, []⟩ rfl).1 rfl

theorem pkey_from_arg_type_mismatch (h : KeyHandle) (t : Nat) (ht0 : t ≠ 0)
    (ht : h.keyType ≠ t) (rp : Bool) :
    pkey_from_arg h t rp = .error (.argError 1 typeMismatchMsg) := by
  unfold pkey_from_arg
  rw [if_pos ⟨ht0, ht⟩]

theorem pkey_from_arg_ok (h : KeyHandle) (t : Nat) (ht : h.keyType = t)
    (hp : h.isPrivate = true) (rp : Bool) :
    pkey_from_arg h t rp = .ok () := by
  unfold pkey_from_arg
  rw [if_neg (by simp [ht]), if_neg (by simp [hp])]

theorem pkey_from_arg_public_ok (h : KeyHandle) (t : Nat) (ht : h.keyType = t) :
    pkey_from_arg h t false = .ok () := by
  unfold pkey_from_arg
  rw [if_neg (by simp [ht]), if_neg (by simp)]

theorem base_evp_sign_type_mismatch (kt : Nat) (dg : Option Nat) (h : KeyHandle)
    (msg : List Nat) (native : SignNative)
    (ht : h.keyType ≠ (if kt ≠ NID_rsassaPss then kt else NID_rsaEncryption))
    (ht0 : (if kt ≠ NID_rsassaPss then kt else NID_rsaEncryption) ≠ 0) :
    base_evp_sign kt dg h msg native = (.error (.argError 1 typeMismatchMsg), []) := by
  unfold base_evp_sign
  rw [pkey_from_arg_type_mismatch h _ ht0 ht _]

theorem base_evp_verify_type_mismatch (kt : Nat) (dg : Option Nat) (h : KeyHandle)
    (msg sig : List Nat) (native : VerifyNative)
    (ht : h.keyType ≠ (if kt ≠ NID_rsassaPss then kt else NID_rsaEncryption))
    (ht0 : (if kt ≠ NID_rsassaPss then kt else NID_rsaEncryption) ≠ 0) :
    base_evp_verify kt dg h msg sig native = (.error (.argError 1 typeMismatchMsg), []) := by
  unfold base_evp_verify
  rw [pkey_from_arg_type_mismatch h _ ht0 ht _]

/-- Claim C6: for every verify operation on a handle passing the type check,
the pushed value is always one of the three Lua values `true`, `false`,
`nil` (never a raised error), and the mapping is exact: `true` (valid) iff
`EVP_DigestVerifyInit` succeeded and `EVP_DigestVerify` returned 1,
`false` (invalid) iff init succeeded and the native result was 0, and
`nil` (error) iff init failed or the native result was neither 0 nor 1 —
so `invalid` and `error` are never conflated. -/
theorem C6_verify_tristate (key_type : Nat) (dg : Option Nat) (h : KeyHandle)
    (msg sig : List Nat) (native : VerifyNative)
    (ht : h.keyType = (if key_type ≠ NID_rsassaPss then key_type else NID_rsaEncryption)) :
    (∃ v : Option Bool, (base_evp_verify key_type dg h msg sig native).1 = .ok v) ∧
    ((base_evp_verify key_type dg h msg sig native).1 = .ok (some true)
      ↔ native.initOk = true ∧ native.result = 1) ∧
    ((base_evp_verify key_type dg h msg sig native).1 = .ok (some false)
      ↔ native.initOk = true ∧ native.result = 0) ∧
    ((base_evp_verify key_type dg h msg sig native).1 = .ok none
      ↔ native.initOk = false ∨ (native.result ≠ 0 ∧ native.result ≠ 1)) := by
  have hok : pkey_from_arg h
      (if key_type ≠ NID_rsassaPss then key_type else NID_rsaEncryption) false = .ok () :=
    pkey_from_arg_public_ok h _ ht
  simp only [base_evp_verify, hok]
  obtain ⟨i, r⟩ := native
  cases i <;> by_cases hr0 : r = 0 <;> by_cases hr1 : r = 1 <;> simp_all

/-- Witness for C6: an Ed25519 verify with a succeeding native init and
native result 1 returns the Lua value `true`. -/
theorem C6_verify_tristate_witness :
    (base_evp_verify NID_ED25519 none ⟨NID_ED25519, true⟩ [] [] ⟨true, 1⟩).1
      = .ok (some true) :=
  ((C6_verify_tristate NID_ED25519 none ⟨NID_ED25519, true⟩ [] [] ⟨true, 1⟩
    (by decide)).2.1).mpr ⟨rfl, rfl⟩

/-- Claim C9: the RSA-PSS sign/verify operations validate the handle against
the same expected key type tag as the RSA-PKCS1v1.5 operations
(`NID_rsaEncryption` — a non-RSA handle fails all four with the same type
mismatch); when the PSS operations proceed, PSS padding is selected on the
context immediately after digest initialisation; and the PKCS1v1.5
operations never issue a padding-selection call, leaving the default
PKCS#1 v1.5 padding in place. -/
theorem C9_pss_rsa_padding (h : KeyHandle) (msg sig : List Nat)
    (ns : SignNative) (nv : VerifyNative) :
    (h.keyType ≠ NID_rsaEncryption →
      Lrsassa_pss_256_sign h msg ns = (.error (.argError 1 typeMismatchMsg), []) ∧
      Lrsassa_pss_256_verify h msg sig nv = (.error (.argError 1 typeMismatchMsg), []) ∧
      Lrsassa_pkcs1_256_sign h msg ns = (.error (.argError 1 typeMismatchMsg), []) ∧
      Lrsassa_pkcs1_256_verify h msg sig nv = (.error (.argError 1 typeMismatchMsg), [])) ∧
    (h.keyType = NID_rsaEncryption → h.isPrivate = true → ns.initOk = true →
      (Lrsassa_pss_256_sign h msg ns).2.take 2
        = [.digestSignInit, .setRsaPadding RSA_PKCS1_PSS_PADDING]) ∧
    (h.keyType = NID_rsaEncryption → nv.initOk = true →
      (Lrsassa_pss_256_verify h msg sig nv).2.take 2
        = [.digestVerifyInit, .setRsaPadding RSA_PKCS1_PSS_PADDING]) ∧
    (∀ p : Nat, NativeCall.setRsaPadding p ∉ (Lrsassa_pkcs1_256_sign h msg ns).2) ∧
    (∀ p : Nat, NativeCall.setRsaPadding p ∉ (Lrsassa_pkcs1_256_verify h msg sig nv).2) := by
  refine ⟨?_, ?_, ?_, ?_, ?_⟩
  · intro hk
    refine ⟨?_, ?_, ?_, ?_⟩
    · exact base_evp_sign_type_mismatch _ _ h msg ns
        (by rw [if_neg (by decide)]; exact hk) (by decide)
    · exact base_evp_verify_type_mismatch _ _ h msg sig nv
        (by rw [if_neg (by decide)]; exact hk) (by decide)
    · exact base_evp_sign_type_mismatch _ _ h msg ns
        (by rw [if_pos (by decide)]; exact hk) (by decide)
    · exact base_evp_verify_type_mismatch _ _ h msg sig nv
        (by rw [if_pos (by decide)]; exact hk) (by decide)
  · intro hk hp hi
    have hok : pkey_from_arg h
        (if NID_rsassaPss ≠ NID_rsassaPss then NID_rsassaPss else NID_rsaEncryption) true
        = .ok () :=
      pkey_from_arg_ok h _ (by rw [if_neg (by decide)]; exact hk) hp _
    show (base_evp_sign NID_rsassaPss (some NID_sha256) h msg ns).2.take 2 = _
    simp only [base_evp_sign, hok]
    by_cases h1 : ns.probeOk = false <;> by_cases h2 : ns.signOk = false <;>
      simp [hi, h1, h2]
  · intro hk hi
    have hok : pkey_from_arg h
        (if NID_rsassaPss ≠ NID_rsassaPss then NID_rsassaPss else NID_rsaEncryption) false
        = .ok () :=
      pkey_from_arg_public_ok h _ (by rw [if_neg (by decide)]; exact hk)
    show (base_evp_verify NID_rsassaPss (some NID_sha256) h msg sig nv).2.take 2 = _
    simp only [base_evp_verify, hok]
    simp [hi]
  · intro p
    show NativeCall.setRsaPadding p ∉ (base_evp_sign NID_rsaEncryption (some NID_sha256) h msg ns).2
    rcases hpk : pkey_from_arg h
        (if NID_rsaEncryption ≠ NID_rsassaPss then NID_rsaEncryption else NID_rsaEncryption)
        true with e | u
    · simp only [base_evp_sign, hpk]
      simp
    · simp only [base_evp_sign, hpk]
      by_cases h1 : ns.initOk = false <;> by_cases h2 : ns.probeOk = false <;>
        by_cases h3 : ns.signOk = false <;>
        simp [h1, h2, h3, show ¬(NID_rsaEncryption = NID_rsassaPss) from by decide]
  · intro p
    show NativeCall.setRsaPadding p
        ∉ (base_evp_verify NID_rsaEncryption (some NID_sha256) h msg sig nv).2
    rcases hpk : pkey_from_arg h
        (if NID_rsaEncryption ≠ NID_rsassaPss then NID_rsaEncryption else NID_rsaEncryption)
        false with e | u
    · simp only [base_evp_verify, hpk]
      simp
    · simp only [base_evp_verify, hpk]
      by_cases h1 : nv.initOk = false <;>
        simp [h1, show ¬(NID_rsaEncryption = NID_rsassaPss) from by decide]

/-- Witness for C9: with an RSA private handle and a succeeding native init,
the PSS signing trace begins with digest initialisation immediately followed
by PSS padding selection. -/
theorem C9_pss_rsa_padding_witness :
    (Lrsassa_pss_256_sign ⟨NID_rsaEncryption, true⟩ [] ⟨true, true, true, []⟩).2.take 2
      = [.digestSignInit, .setRsaPadding RSA_PKCS1_PSS_PADDING] :=
  (C9_pss_rsa_padding ⟨NID_rsaEncryption, true⟩ [] [] ⟨true, true, true, []⟩
    ⟨true, 1⟩).2.1 rfl rfl rfl

/-! ## Claim theorems: AEAD -/

/-- Claim C7: a key of the wrong length for the variant, or a nonce of
length other than 12, makes both AEAD entry points fail — the key error via
`luaL_error` naming the expected key length, the nonce error via
`luaL_argerror` on argument 2 naming the expected 12 bytes — with an empty
native-call trace (no native cipher call) and no output bytes. -/
theorem C7_aead_length_preconditions (M : GCMModel) (ekl : Nat)
    (key iv pt ct : List Nat) (hbad : key.length ≠ ekl ∨ iv.length ≠ 12) :
    Laes_gcm_encrypt M ekl key iv pt
      = (.error (if key.length ≠ ekl
          then .runtimeError ("key must be " ++ toString ekl ++ " bytes")
          else .argError 2 "iv must be 12 bytes"), []) ∧
    Laes_gcm_decrypt M ekl key iv ct
      = (.error (if key.length ≠ ekl
          then .runtimeError ("key must be " ++ toString ekl ++ " bytes")
          else .argError 2 "iv must be 12 bytes"), []) := by
  by_cases hk : key.length = ekl
  · have hiv : iv.length ≠ 12 := by tauto
    constructor
    · unfold Laes_gcm_encrypt
      rw [if_neg (by simp [hk]), if_pos hiv, if_neg (by simp [hk])]
    · unfold Laes_gcm_decrypt
      rw [if_neg (by simp [hk]), if_pos hiv, if_neg (by simp [hk])]
  · constructor
    · unfold Laes_gcm_encrypt
      rw [if_pos hk, if_pos hk]
    · unfold Laes_gcm_decrypt
      rw [if_pos hk, if_pos hk]

/-- Witness for C7: an empty key for the AES-128 variant is rejected with
the key-length error and an empty native trace. -/
theorem C7_aead_length_preconditions_witness :
    Laes_gcm_encrypt demoGCM 16 [] (List.replicate 12 0) []
      = (.error (.runtimeError "key must be 16 bytes"), []) := by
  have := (C7_aead_length_preconditions demoGCM 16 [] (List.replicate 12 0) []
    (List.replicate 17 0) (Or.inl (by decide))).1
  simpa using this

/-- Claim C5: on a valid key/nonce, encryption succeeds and its output is
exactly the ciphertext body (same length as the plaintext) followed by the
16-byte tag over that body: total length `plaintext + 16`, the trailing 16
bytes are the tag, and nothing else (in particular not the nonce) is in the
output. -/
theorem C5_encrypt_layout (M : GCMModel) (ekl : Nat) (key iv pt : List Nat)
    (hkey : key.length = ekl) (hiv : iv.length = 12)
    (hks : (M.keystream key iv pt.length).length = pt.length)
    (htag : (M.tagOf key iv (xorBytes pt (M.keystream key iv pt.length))).length = 16) :
    ∃ ct : List Nat,
      (Laes_gcm_encrypt M ekl key iv pt).1 = .ok (ct ++ M.tagOf key iv ct) ∧
      ct.length = pt.length ∧
      (ct ++ M.tagOf key iv ct).length = pt.length + 16 ∧
      (ct ++ M.tagOf key iv ct).take pt.length = ct ∧
      (ct ++ M.tagOf key iv ct).drop pt.length = M.tagOf key iv ct := by
  refine ⟨xorBytes pt (M.keystream key iv pt.length), ?_, ?_, ?_, ?_, ?_⟩
  · unfold Laes_gcm_encrypt
    rw [if_neg (by simp [hkey]), if_neg (by simp [hiv])]
  · rw [xorBytes_length, hks, Nat.min_self]
  · rw [List.length_append, xorBytes_length, hks, Nat.min_self, htag]
  · exact List.take_left' (by rw [xorBytes_length, hks, Nat.min_self])
  · exact List.drop_left' (by rw [xorBytes_length, hks, Nat.min_self])

/-- Witness for C5: a one-byte plaintext encrypts to a 17-byte output laid
out as ciphertext followed by the tag. -/
theorem C5_encrypt_layout_witness :
    ∃ ct : List Nat,
      (Laes_gcm_encrypt demoGCM 16 (List.replicate 16 0) (List.replicate 12 0) [42]).1
        = .ok (ct ++ demoGCM.tagOf (List.replicate 16 0) (List.replicate 12 0) ct) ∧
      ct.length = ([42] : List Nat).length ∧
      (ct ++ demoGCM.tagOf (List.replicate 16 0) (List.replicate 12 0) ct).length
        = ([42] : List Nat).length + 16 ∧
      (ct ++ demoGCM.tagOf (List.replicate 16 0) (List.replicate 12 0) ct).take
          ([42] : List Nat).length = ct ∧
      (ct ++ demoGCM.tagOf (List.replicate 16 0) (List.replicate 12 0) ct).drop
          ([42] : List Nat).length
        = demoGCM.tagOf (List.replicate 16 0) (List.replicate 12 0) ct :=
  C5_encrypt_layout demoGCM 16 (List.replicate 16 0) (List.replicate 12 0) [42]
    (by decide) (by decide) (by decide) (by decide)

/-- Claim C4: on a valid key/nonce and an input longer than 16 bytes,
decryption finalisation checks the trailing 16 bytes against the tag over
the leading bytes: on mismatch the result is the distinct `verify-failed`
outcome carrying no plaintext bytes, and on match the result is a plaintext
of exactly `length - 16` bytes. -/
theorem C4_decrypt_tag_auth (M : GCMModel) (ekl : Nat) (key iv ct : List Nat)
    (hkey : key.length = ekl) (hiv : iv.length = 12) (hct : 16 < ct.length)
    (hks : (M.keystream key iv (ct.length - 16)).length = ct.length - 16) :
    (ct.drop (ct.length - 16) ≠ M.tagOf key iv (ct.take (ct.length - 16)) →
      (Laes_gcm_decrypt M ekl key iv ct).1 = .ok .verifyFailed) ∧
    (ct.drop (ct.length - 16) = M.tagOf key iv (ct.take (ct.length - 16)) →
      ∃ pt : List Nat, (Laes_gcm_decrypt M ekl key iv ct).1 = .ok (.plaintext pt) ∧
        pt.length = ct.length - 16) := by
  have hbody : (ct.take (ct.length - 16)).length = ct.length - 16 := by
    rw [List.length_take]
    omega
  constructor
  · intro htag
    unfold Laes_gcm_decrypt
    rw [if_neg (by simp [hkey]), if_neg (by simp [hiv]), if_neg (by simp [hct])]
    simp only [hbody]
    rw [if_neg htag]
  · intro htag
    refine ⟨xorBytes (ct.take (ct.length - 16)) (M.keystream key iv (ct.length - 16)), ?_, ?_⟩
    · unfold Laes_gcm_decrypt
      rw [if_neg (by simp [hkey]), if_neg (by simp [hiv]), if_neg (by simp [hct])]
      simp only [hbody]
      rw [if_pos htag]
    · rw [xorBytes_length, hbody, hks, Nat.min_self]

/-- Witness for C4: a 17-byte all-zero input under the demo model has a
trailing 16 bytes different from the tag, so decryption reports
`verify-failed`. -/
theorem C4_decrypt_tag_auth_witness :
    (Laes_gcm_decrypt demoGCM 16 (List.replicate 16 0) (List.replicate 12 0)
        (List.replicate 17 0)).1 = .ok .verifyFailed :=
  (C4_decrypt_tag_auth demoGCM 16 (List.replicate 16 0) (List.replicate 12 0)
    (List.replicate 17 0) (by decide) (by decide) (by decide) (by decide)).1 (by decide)

/-- Claim C1 (code bug): for the empty plaintext the round trip fails.
Encryption of the empty plaintext succeeds and yields exactly the 16-byte
tag, but decryption rejects that 16-byte output with the argument error
whose own message reads "ciphertext must be at least 16 bytes (including
tag)" — the code checks `ciphertext_len > 16`, strictly, contradicting the
message.  The same key/nonce round trip succeeds for a 1-byte plaintext. -/
theorem C1_empty_plaintext_roundtrip_rejected :
    (Laes_128_gcm_encrypt demoGCM (List.replicate 16 0) (List.replicate 12 0) []).1
      = .ok (demoGCM.tagOf (List.replicate 16 0) (List.replicate 12 0) []) ∧
    (demoGCM.tagOf (List.replicate 16 0) (List.replicate 12 0) []).length = 16 ∧
    (Laes_128_gcm_decrypt demoGCM (List.replicate 16 0) (List.replicate 12 0)
        (demoGCM.tagOf (List.replicate 16 0) (List.replicate 12 0) [])).1
      = .error (.argError 3 "ciphertext must be at least 16 bytes (including tag)") ∧
    (Laes_128_gcm_decrypt demoGCM (List.replicate 16 0) (List.replicate 12 0)
        ((Laes_128_gcm_encrypt demoGCM (List.replicate 16 0)
          (List.replicate 12 0) [42]).1.toOption.getD [])).1
      = .ok (.plaintext [42]) :=
  ⟨rfl, rfl, rfl, rfl⟩

/-! ## Claim theorems: ECDSA signature codec -/

/-- Claim C8: for every DER signature the parser accepts, the returned
components are the minimal big-endian encodings (empty or without a leading
zero byte) of the two integers, and rebuilding from those components and
re-parsing returns exactly the same components — hence the same `(r, s)`
integer values — including for DER inputs whose `INTEGER`s carry a leading
zero byte. -/
theorem C8_ecdsa_codec_roundtrip (der : List Nat) (r s : Nat)
    (hparse : d2i_ECDSA_SIG der = some (r, s)) :
    Lparse_ecdsa_signature der = some (BN_bn2bin r, BN_bn2bin s) ∧
    (BN_bn2bin r = [] ∨ (BN_bn2bin r).headD 0 ≠ 0) ∧
    (BN_bn2bin s = [] ∨ (BN_bn2bin s).headD 0 ≠ 0) ∧
    Lparse_ecdsa_signature (Lbuild_ecdsa_signature (BN_bn2bin r) (BN_bn2bin s))
      = some (BN_bn2bin r, BN_bn2bin s) := by
  refine ⟨?_, ?_, ?_, ?_⟩
  · simp [Lparse_ecdsa_signature, hparse]
  · by_cases hr : r = 0
    · exact Or.inl (by rw [hr, BN_bn2bin_zero])
    · exact Or.inr (BN_bn2bin_headD_ne_zero r hr)
  · by_cases hs : s = 0
    · exact Or.inl (by rw [hs, BN_bn2bin_zero])
    · exact Or.inr (BN_bn2bin_headD_ne_zero s hs)
  · unfold Lbuild_ecdsa_signature
    rw [BN_bin2bn_bn2bin, BN_bin2bn_bn2bin]
    simp [Lparse_ecdsa_signature, d2i_i2d_ECDSA_SIG]

/-- Witness for C8: a DER signature with a leading zero byte in each
`INTEGER` (values 128 and 255) parses, strips the padding to the minimal
encodings, and round-trips through build and re-parse. -/
theorem C8_ecdsa_codec_roundtrip_witness :
    d2i_ECDSA_SIG [48, 8, 2, 2, 0, 128, 2, 2, 0, 255] = some (128, 255) ∧
    (Lparse_ecdsa_signature [48, 8, 2, 2, 0, 128, 2, 2, 0, 255]
        = some (BN_bn2bin 128, BN_bn2bin 255) ∧
      (BN_bn2bin 128 = [] ∨ (BN_bn2bin 128).headD 0 ≠ 0) ∧
      (BN_bn2bin 255 = [] ∨ (BN_bn2bin 255).headD 0 ≠ 0) ∧
      Lparse_ecdsa_signature (Lbuild_ecdsa_signature (BN_bn2bin 128) (BN_bn2bin 255))
        = some (BN_bn2bin 128, BN_bn2bin 255)) :=
  ⟨by decide,
   C8_ecdsa_codec_roundtrip [48, 8, 2, 2, 0, 128, 2, 2, 0, 255] 128 255 (by decide)⟩

/-- Claim C10: a parsed signature whose `r` integer — or whose `s`
integer — is zero yields the empty byte string for that component
(`BN_num_bytes(0) = 0`), and the builder accepts an empty byte string for
either `r` or `s`, treating it as the integer zero (the built DER
re-parses with that component equal to 0). -/
theorem C10_zero_integer_components (der : List Nat) (r s : Nat) (rb sb : List Nat) :
    (d2i_ECDSA_SIG der = some (0, s) →
      Lparse_ecdsa_signature der = some ([], BN_bn2bin s)) ∧
    (d2i_ECDSA_SIG der = some (r, 0) →
      Lparse_ecdsa_signature der = some (BN_bn2bin r, [])) ∧
    Lbuild_ecdsa_signature [] sb = i2d_ECDSA_SIG 0 (BN_bin2bn sb) ∧
    Lbuild_ecdsa_signature rb [] = i2d_ECDSA_SIG (BN_bin2bn rb) 0 ∧
    d2i_ECDSA_SIG (Lbuild_ecdsa_signature [] sb) = some (0, BN_bin2bn sb) ∧
    d2i_ECDSA_SIG (Lbuild_ecdsa_signature rb []) = some (BN_bin2bn rb, 0) := by
  refine ⟨?_, ?_, ?_, ?_, ?_, ?_⟩
  · intro hparse
    simp [Lparse_ecdsa_signature, hparse, BN_bn2bin_zero]
  · intro hparse
    simp [Lparse_ecdsa_signature, hparse, BN_bn2bin_zero]
  · rfl
  · rfl
  · unfold Lbuild_ecdsa_signature
    rw [show BN_bin2bn [] = 0 from rfl]
    exact d2i_i2d_ECDSA_SIG 0 (BN_bin2bn sb)
  · unfold Lbuild_ecdsa_signature
    rw [show BN_bin2bn [] = 0 from rfl]
    exact d2i_i2d_ECDSA_SIG (BN_bin2bn rb) 0

/-- Witness for C10: the DER signature `(r, s) = (0, 5)` parses with an
empty `r` component and `(r, s) = (5, 0)` with an empty `s` component, and
building with an empty byte string on either side encodes the integer zero
there. -/
theorem C10_zero_integer_components_witness :
    (d2i_ECDSA_SIG [48, 6, 2, 1, 0, 2, 1, 5] = some (0, 5) ∧
      Lparse_ecdsa_signature [48, 6, 2, 1, 0, 2, 1, 5] = some ([], BN_bn2bin 5)) ∧
    (d2i_ECDSA_SIG [48, 6, 2, 1, 5, 2, 1, 0] = some (5, 0) ∧
      Lparse_ecdsa_signature [48, 6, 2, 1, 5, 2, 1, 0] = some (BN_bn2bin 5, [])) ∧
    Lbuild_ecdsa_signature [] [5] = i2d_ECDSA_SIG 0 (BN_bin2bn [5]) ∧
    Lbuild_ecdsa_signature [5] [] = i2d_ECDSA_SIG (BN_bin2bn [5]) 0 ∧
    d2i_ECDSA_SIG (Lbuild_ecdsa_signature [] [5]) = some (0, BN_bin2bn [5]) ∧
    d2i_ECDSA_SIG (Lbuild_ecdsa_signature [5] []) = some (BN_bin2bn [5], 0) :=
  ⟨⟨by decide,
    (C10_zero_integer_components [48, 6, 2, 1, 0, 2, 1, 5] 5 5 [5] [5]).1 (by decide)⟩,
   ⟨by decide,
    (C10_zero_integer_components [48, 6, 2, 1, 5, 2, 1, 0] 5 5 [5] [5]).2.1 (by decide)⟩,
   (C10_zero_integer_components [] 5 5 [5] [5]).2.2.1,
   (C10_zero_integer_components [] 5 5 [5] [5]).2.2.2.1,
   (C10_zero_integer_components [] 5 5 [5] [5]).2.2.2.2.1,
   (C10_zero_integer_components [] 5 5 [5] [5]).2.2.2.2.2⟩
